import Mathlib

/-!
Shallow embedding of `src/main.py`, a FastAPI webhook receiver that
provisions a GitHub repository in a background task and notifies a
caller-supplied evaluation URL with bounded retries.

JSON values are modelled by an inductive type; Python truthiness, `dict.get`
and raising subscript access are modelled explicitly.  Remote HTTP calls are
resolved by an oracle (`Env`) that assigns each call either a `Response` or a
raised transport error; the background task `process_request` returns the
trace of outbound calls and sleeps it performs (its outer `try/except`
absorbs every exception, so the function is total).
-/

/-- A JSON value, as produced by `request.json()` / `response.json()`.
Object keys are taken to be distinct, as `json.loads` yields. -/
inductive Json where
  | null : Json
  | bool : Bool → Json
  | num : Int → Json
  | str : String → Json
  | arr : List Json → Json
  | obj : List (String × Json) → Json

/-- Python truthiness (`bool(x)`) on JSON-shaped values: `None`, `False`,
`0`, empty string, empty list, empty dict are falsy. -/
def Json.truthy : Json → Bool
  | .null => false
  | .bool b => b
  | .num n => n != 0
  | .str s => s != ""
  | .arr xs => !xs.isEmpty
  | .obj kvs => !kvs.isEmpty

/-- Raising subscript `d[k]` on a JSON value: a missing key, or a non-dict
receiver, raises (modelled by `Except.error`). -/
def Json.idx (j : Json) (k : String) : Except Unit Json :=
  match j with
  | .obj kvs =>
    match kvs.lookup k with
    | some v => Except.ok v
    | none => Except.error ()
  | _ => Except.error ()

/-- Raising subscript `xs[i]` on a JSON value: out of range, or a non-list
receiver, raises. -/
def Json.item (j : Json) (i : Nat) : Except Unit Json :=
  match j with
  | .arr xs =>
    match xs.get? i with
    | some v => Except.ok v
    | none => Except.error ()
  | _ => Except.error ()

/-- Python `str()` of a JSON-shaped value, as used by f-string
interpolation.  The source only ever interpolates scalars; the rendering of
containers is not exercised by any claim and is abbreviated. -/
def pyStr : Json → String
  | .null => "None"
  | .bool true => "True"
  | .bool false => "False"
  | .num n => toString n
  | .str s => s
  | .arr _ => "[...]"
  | .obj _ => "\x7b...\x7d"

/-- `dict.get(k)` truthiness test used for the required-field check
(`not data.get(k)`): a missing key yields `None`, which is falsy. -/
def pyTruthyGet (kvs : List (String × Json)) (k : String) : Bool :=
  match kvs.lookup k with
  | some v => v.truthy
  | none => false

/-- UTF-8 encoding of one code point (`str.encode("utf-8")`). -/
def utf8Bytes (c : Nat) : List Nat :=
  if c < 128 then [c]
  else if c < 2048 then [192 + c / 64, 128 + c % 64]
  else if c < 65536 then [224 + c / 4096, 128 + c / 64 % 64, 128 + c % 64]
  else [240 + c / 262144, 128 + c / 4096 % 64, 128 + c / 64 % 64, 128 + c % 64]

/-- UTF-8 bytes of a string. -/
def strBytes (s : String) : List Nat :=
  (s.data.map (fun ch => utf8Bytes ch.toNat)).flatten

/-- The base64 alphabet. -/
def b64Chars : List Char :=
  "ABCDEFGHIJKLMNOPQRSTUVWXYZabcdefghijklmnopqrstuvwxyz0123456789+/".toList

def b64Char (n : Nat) : Char := b64Chars.getD n (Char.ofNat 65)

/-- Base64 of a byte list, with `=` padding
(`base64.b64encode(...)`). -/
def b64Groups : List Nat → List Char
  | [] => []
  | [a] => [b64Char (a / 4), b64Char (a % 4 * 16), '=', '=']
  | [a, b] => [b64Char (a / 4), b64Char (a % 4 * 16 + b / 16), b64Char (b % 16 * 4), '=']
  | a :: b :: c :: rest =>
    b64Char (a / 4) :: b64Char (a % 4 * 16 + b / 16) ::
      b64Char (b % 16 * 4 + c / 64) :: b64Char (c % 64) :: b64Groups rest

/-- `base64.b64encode(content.encode("utf-8")).decode("utf-8")`. -/
def b64encode (s : String) : String :=
  String.mk (b64Groups (strBytes s))

/-- One remote HTTP call either returns a `Response` or raises a transport
error. -/
structure Response where
  status : Nat
  body : Json

inductive Outcome where
  | resp : Response → Outcome
  | raise : Outcome

/-- Oracle resolving the remote calls a background run makes:
the repository-creation POST, the n-th file PUT (0 = LICENSE,
1 = README.md, 2 = example.py, 3 = config.json), the commit-list GET and
the n-th POST to the evaluation URL. -/
structure Env where
  createResp : Outcome
  putResp : Nat → Outcome
  commitsResp : Outcome
  evalResp : Nat → Outcome

/-- An observable action of the background task. -/
inductive Event where
  | postCreate (url : String) (payload : Json)
  | putFile (url : String) (message : String) (content : String)
  | getCommits (url : String)
  | postEval (url : Json) (payload : Json)
  | sleep (d : Nat)

/-- `GITHUB_API_URL`: `os.getenv` default used when the variable is
unset. -/
def GITHUB_API_URL : String := "https://api.github.com"

def description : String := "A FastAPI-based application for solving captcha tasks."

/-- The MIT license text committed as `LICENSE` (lines 83-104). -/
def license_content : String :=
  "MIT License\n\nCopyright (c) 2023\n\nPermission is hereby granted, free of charge, to any person obtaining a copy\nof this software and associated documentation files (the \"Software\"), to deal\nin the Software without restriction, including without limitation the rights\nto use, copy, modify, merge, publish, distribute, sublicense, and/or sell\ncopies of the Software, and to permit persons to whom the Software is\nfurnished to do so, subject to the following conditions:\n\nThe above copyright notice and this permission notice shall be included in all\ncopies or substantial portions of the Software.\n\nTHE SOFTWARE IS PROVIDED \"AS IS\", WITHOUT WARRANTY OF ANY KIND, EXPRESS OR\nIMPLIED, INCLUDING BUT NOT LIMITED TO THE WARRANTIES OF MERCHANTABILITY,\nFITNESS FOR A PARTICULAR PURPOSE AND NONINFRINGEMENT. IN NO EVENT SHALL THE\nAUTHORS OR COPYRIGHT HOLDERS BE LIABLE FOR ANY CLAIM, DAMAGES OR OTHER\nLIABILITY, WHETHER IN AN ACTION OF CONTRACT, TORT OR OTHERWISE, ARISING FROM,\nOUT OF OR IN CONNECTION WITH THE SOFTWARE OR THE USE OR OTHER DEALINGS IN THE\nSOFTWARE.\n"

/-- The README template (lines 113-150), an f-string over `repo_name` and
`repo_data["full_name"]`.  The backslash-newline pairs inside the Python
literal are line continuations, so the curl command is a single line. -/
def readme_content (repo_name full_name : String) : String :=
  "# " ++ repo_name ++
  "\n\n## Summary\nThis project is a FastAPI-based application for solving captcha tasks.\n\n## Setup\n1. Clone the repository:\n```bash\ngit clone https://github.com/" ++
  full_name ++
  ".git\n```\n2. Navigate to the project directory:\n```bash\ncd " ++
  repo_name ++
  "\n```\n3. Install dependencies:\n```bash\npip install -r requirements.txt\n```\n4. Run the application:\n```bash\nuvicorn main:app --reload\n```\n\n## Usage\n- Access the root endpoint:\n```bash\ncurl -X GET http://127.0.0.1:8000/\n```\n- Send a POST request to `/api-endpoint`:\n```bash\ncurl -X POST http://127.0.0.1:8000/api-endpoint     -H \"Content-Type: application/json\"     -d \x27\x7b\"email\": \"student@example.com\", \"secret\": \"abcd\", \"task\": \"" ++
  repo_name ++
  "\", \"round\": 1, \"nonce\": \"ab12-...\", \"brief\": \"Create a captcha solver.\"\x7d\x27\n```\n\n## License\nThis project is licensed under the MIT License. See the [LICENSE](LICENSE) file for details.\n"

/-- Step 4 contents (lines 159-162): filename/content pairs committed in
dict-iteration order. -/
def llm_generated_files : List (String × String) :=
  [("example.py", "print(\x27Hello from LLM-generated file!\x27)"),
   ("config.json", "\x7b\"setting\": \"value\"\x7d")]

/-- The endpoint response: HTTP status, JSON body, and the
`background_tasks.add_task(process_request, data, evaluation_url)` call
recorded if one was made. -/
structure ApiResponse where
  status : Nat
  body : Option (List (String × Json))
  scheduled : Option (List (String × Json) × Json)

def required_keys : List String := ["email", "task", "round", "nonce"]

/-- The `POST /api-endpoint` handler (lines 33-56).  Input `none` models a
body that fails to parse as JSON (`request.json()` raises); a parsed body
that is not a dict makes `data.get` raise `AttributeError`.  Either
exception lands in the `except` branch: status 500 with the
`HTTPException` detail body. -/
def api_endpoint : Option Json → ApiResponse
  | some (Json.obj data) =>
    let evaluation_url := (data.lookup "evaluation_url").getD Json.null
    let usercode := (data.lookup "usercode").getD (Json.str "default_usercode")
    let missing := required_keys.filter (fun k => !(pyTruthyGet data k))
    { status := 200,
      body := some [("usercode", usercode)],
      scheduled :=
        if evaluation_url.truthy && missing.isEmpty then some (data, evaluation_url)
        else none }
  | _ =>
    { status := 500,
      body := some [("detail", Json.str "Internal Server Error")],
      scheduled := none }

/-- Step 6 retry loop (lines 190-204): up to `fuel` further attempts
(5 at entry), `break` on a 200 response, otherwise sleep `delay` seconds
and double it.  A raised transport error escapes the loop, there being no
handler inside it; the Bool records whether the run ended in the outer
`except`. -/
def notifyLoop (evalResp : Nat → Outcome) (evaluation_url payload : Json) :
    Nat → Nat → Nat → List Event × Bool
  | 0, _, _ => ([], false)
  | fuel + 1, attempt, delay =>
    match evalResp attempt with
    | .raise => ([Event.postEval evaluation_url payload], true)
    | .resp r =>
      if r.status = 200 then ([Event.postEval evaluation_url payload], false)
      else
        let rest := notifyLoop evalResp evaluation_url payload fuel (attempt + 1) (delay * 2)
        (Event.postEval evaluation_url payload :: Event.sleep delay :: rest.1, rest.2)

/-- The retry loop as entered by the source: `delay = 1`,
`for attempt in range(5)`. -/
def notifyRun (evalResp : Nat → Outcome) (evaluation_url payload : Json) :
    List Event × Bool :=
  notifyLoop evalResp evaluation_url payload 5 0 1

/-- The `evaluation_payload` dict (lines 180-188). -/
def evalPayload (data : List (String × Json))
    (html_urlJ commit_shaJ ownerLoginJ nameJ : Json) : Json :=
  Json.obj [("email", (data.lookup "email").getD Json.null),
    ("task", (data.lookup "task").getD Json.null),
    ("round", (data.lookup "round").getD Json.null),
    ("nonce", (data.lookup "nonce").getD Json.null),
    ("repo_url", html_urlJ),
    ("commit_sha", commit_shaJ),
    ("pages_url", Json.str ("https://" ++ pyStr ownerLoginJ ++ ".github.io/" ++ pyStr nameJ ++ "/"))]

/-- Lines 177-204: `commits_response.json()[0]["sha"]` (raising on an
empty list or a missing key, caught by the outer handler), payload
assembly (raising when `html_url`, `owner`, `login` or `name` is missing
from the creation response) and the retried POST to the evaluation URL. -/
def step6 (data : List (String × Json)) (evaluation_url : Json) (env : Env)
    (repo_data commits_body : Json) : List Event :=
  match (commits_body.item 0).bind (fun c => c.idx "sha") with
  | .error _ => []
  | .ok commit_shaJ =>
    match repo_data.idx "html_url",
        (repo_data.idx "owner").bind (fun o => o.idx "login"),
        repo_data.idx "name" with
    | .ok html_urlJ, .ok ownerLoginJ, .ok nameJ =>
      (notifyRun env.evalResp evaluation_url
        (evalPayload data html_urlJ commit_shaJ ownerLoginJ nameJ)).1
    | _, _, _ => []

/-- Step 5 (lines 171-176): GET the commit list; on a raised transport
error or a non-200 status, log and stop. -/
def step5 (data : List (String × Json)) (evaluation_url : Json) (env : Env)
    (repo_data : Json) (full_name : String) : List Event :=
  Event.getCommits (GITHUB_API_URL ++ "/repos/" ++ full_name ++ "/commits") ::
  match env.commitsResp with
  | .raise => []
  | .resp commits_response =>
    if commits_response.status = 200 then
      step6 data evaluation_url env repo_data commits_response.body
    else []

/-- Step 4 loop (lines 163-169): PUT each generated file.  The responses
are not status-checked; only a raised transport error stops the run.
`i` indexes the oracle (2 for example.py, 3 for config.json). -/
def putGenerated (env : Env) (full_name : String) :
    List (String × String) → Nat → List Event × Bool
  | [], _ => ([], false)
  | (filename, content) :: rest, i =>
    let ev := Event.putFile
      (GITHUB_API_URL ++ "/repos/" ++ full_name ++ "/contents/" ++ filename)
      ("Add " ++ filename) (b64encode content)
    match env.putResp i with
    | .raise => ([ev], true)
    | .resp _ =>
      let r := putGenerated env full_name rest (i + 1)
      (ev :: r.1, r.2)

/-- Steps 2-6 after a 201 creation response (lines 82-204).  The
`full_name` subscript is first evaluated while building the LICENSE URL:
if it raises, nothing further happens.  The LICENSE and README PUT
responses (oracle indices 0 and 1) are not status-checked. -/
def afterCreate (data : List (String × Json)) (evaluation_url : Json) (env : Env)
    (repo_data : Json) (repo_name : String) : List Event :=
  match repo_data.idx "full_name" with
  | .error _ => []
  | .ok full_nameJ =>
    let full_name := pyStr full_nameJ
    Event.putFile (GITHUB_API_URL ++ "/repos/" ++ full_name ++ "/contents/LICENSE")
      "Add MIT License" (b64encode license_content) ::
    match env.putResp 0 with
    | .raise => []
    | .resp _ =>
      Event.putFile (GITHUB_API_URL ++ "/repos/" ++ full_name ++ "/contents/README.md")
        "Add README.md" (b64encode (readme_content repo_name full_name)) ::
      match env.putResp 1 with
      | .raise => []
      | .resp _ =>
        let gen := putGenerated env full_name llm_generated_files 2
        gen.1 ++ (if gen.2 then [] else step5 data evaluation_url env repo_data full_name)

/-- The repository-creation payload (lines 68-72):
`repo_name = data.get("task", "default-repo-name")`, fixed description,
`private = not is_public = False`. -/
def createPayload (data : List (String × Json)) : Json :=
  Json.obj [("name", (data.lookup "task").getD (Json.str "default-repo-name")),
    ("description", Json.str description), ("private", Json.bool false)]

/-- The background task `process_request` (lines 58-206), returning the
trace of outbound calls and sleeps.  The whole body sits in a
`try/except` that logs any exception, so the task never propagates one
and the function is total.  On a non-201 creation response the run logs
and returns after the single POST. -/
def process_request (data : List (String × Json)) (evaluation_url : Json)
    (env : Env) : List Event :=
  let repo_name := pyStr ((data.lookup "task").getD (Json.str "default-repo-name"))
  Event.postCreate (GITHUB_API_URL ++ "/user/repos") (createPayload data) ::
  match env.createResp with
  | .raise => []
  | .resp response =>
    if response.status = 201 then
      afterCreate data evaluation_url env response.body repo_name
    else []

def isEvalPost : Event → Bool
  | .postEval _ _ => true
  | _ => false

def isPut : Event → Bool
  | .putFile _ _ _ => true
  | _ => false

def isCommitFetch : Event → Bool
  | .getCommits _ => true
  | _ => false

/-- Number of POSTs made to the evaluation URL in a trace. -/
def countEvalPosts (evs : List Event) : Nat := (evs.filter isEvalPost).length

/-- The sleep durations of a trace, in order. -/
def sleepsOf : List Event → List Nat
  | [] => []
  | Event.sleep d :: rest => d :: sleepsOf rest
  | _ :: rest => sleepsOf rest

/-- Concrete creation-response body with all the fields the workflow
reads. -/
def repoDataOk : Json :=
  Json.obj [("full_name", Json.str "owner/task"),
    ("html_url", Json.str "https://github.com/owner/task"),
    ("owner", Json.obj [("login", Json.str "owner")]),
    ("name", Json.str "task")]

/-- A fully valid request body, as the background task receives it. -/
def goodData : List (String × Json) :=
  [("email", Json.str "s@x.com"), ("task", Json.str "demo-repo"),
   ("round", Json.num 1), ("nonce", Json.str "ab12"),
   ("evaluation_url", Json.str "http://cb/eval")]

/-- The body of the example scenario in the specification (its key is
`evaluationURL`). -/
def specExampleBody : List (String × Json) :=
  [("email", Json.str "s@x.com"), ("task", Json.str "demo-repo"),
   ("round", Json.num 1), ("nonce", Json.str "ab12"),
   ("evaluationURL", Json.str "http://cb/eval")]

/-- Environment in which every remote call succeeds. -/
def envAllOk : Env :=
  { createResp := Outcome.resp ⟨201, repoDataOk⟩,
    putResp := fun _ => Outcome.resp ⟨201, Json.null⟩,
    commitsResp := Outcome.resp ⟨200, Json.arr [Json.obj [("sha", Json.str "abc123")]]⟩,
    evalResp := fun _ => Outcome.resp ⟨200, Json.null⟩ }

/-- Environment in which repository creation returns 403. -/
def envCreate403 : Env :=
  { envAllOk with createResp := Outcome.resp ⟨403, Json.null⟩ }

/-- Environment in which the LICENSE PUT returns 500 and everything else
succeeds. -/
def envLicenseFail : Env :=
  { envAllOk with
    putResp := fun i => Outcome.resp ⟨if i = 0 then 500 else 201, Json.null⟩ }

/-- Environment in which the commit list comes back 200 but empty. -/
def envEmptyCommits : Env :=
  { envAllOk with commitsResp := Outcome.resp ⟨200, Json.arr []⟩ }

/-- A request body whose required `round` field is present but falsy. -/
def roundZeroBody : List (String × Json) :=
  [("email", Json.str "s@x.com"), ("task", Json.str "demo-repo"),
   ("round", Json.num 0), ("nonce", Json.str "ab12"),
   ("evaluation_url", Json.str "http://cb/eval")]

theorem countEvalPosts_eq_countP (evs : List Event) :
    countEvalPosts evs = evs.countP isEvalPost := by
  simp [countEvalPosts, List.countP_eq_length_filter]

theorem countEvalPosts_cons_post (u p : Json) (l : List Event) :
    countEvalPosts (Event.postEval u p :: l) = countEvalPosts l + 1 := by
  simp [countEvalPosts, List.filter_cons, isEvalPost]

theorem countEvalPosts_cons_sleep (d : Nat) (l : List Event) :
    countEvalPosts (Event.sleep d :: l) = countEvalPosts l := by
  simp [countEvalPosts, List.filter_cons, isEvalPost]

theorem sleepsOf_cons_post (u p : Json) (l : List Event) :
    sleepsOf (Event.postEval u p :: l) = sleepsOf l := rfl

theorem sleepsOf_cons_sleep (d : Nat) (l : List Event) :
    sleepsOf (Event.sleep d :: l) = d :: sleepsOf l := rfl

/-- While responses keep failing, a first 200 at relative attempt `k`
stops the loop: `k + 1` POSTs, sleeps `d, 2d, …, d·2^(k-1)`, no
exception. -/
theorem notifyLoop_stops_at_success (g : Nat → Response) (u p : Json) :
    ∀ fuel a d k, k < fuel →
    (∀ i, i < k → (g (a + i)).status ≠ 200) → (g (a + k)).status = 200 →
    countEvalPosts (notifyLoop (fun i => Outcome.resp (g i)) u p fuel a d).1 = k + 1 ∧
    sleepsOf (notifyLoop (fun i => Outcome.resp (g i)) u p fuel a d).1 =
      (List.range k).map (fun j => d * 2 ^ j) ∧
    (notifyLoop (fun i => Outcome.resp (g i)) u p fuel a d).2 = false := by
  intro fuel
  induction fuel with
  | zero => intro a d k hk; exact absurd hk (Nat.not_lt_zero k)
  | succ n ih =>
    intro a d k hk hfail hsucc
    match k with
    | 0 =>
      rw [Nat.add_zero] at hsucc
      simp [notifyLoop, hsucc, countEvalPosts, List.filter_cons, isEvalPost, sleepsOf]
    | k' + 1 =>
      have h0 : (g a).status ≠ 200 := by
        have := hfail 0 (Nat.succ_pos k')
        rwa [Nat.add_zero] at this
      have ihk := ih (a + 1) (d * 2) k' (Nat.lt_of_succ_lt_succ hk)
        (fun i hi => by
          have := hfail (i + 1) (Nat.succ_lt_succ hi)
          rwa [show a + (i + 1) = a + 1 + i by omega] at this)
        (by rw [show a + 1 + k' = a + (k' + 1) by omega]; exact hsucc)
      obtain ⟨hc, hs, he⟩ := ihk
      refine ⟨?_, ?_, ?_⟩
      · simp only [notifyLoop, h0, if_false]
        rw [countEvalPosts_cons_post, countEvalPosts_cons_sleep, hc]
      · simp only [notifyLoop, h0, if_false]
        rw [sleepsOf_cons_post, sleepsOf_cons_sleep, hs]
        have hpow : ∀ j, d * 2 ^ (j + 1) = d * 2 * 2 ^ j := fun j => by ring
        simp [List.range_succ_eq_map, List.map_map, Function.comp, hpow]
      · simp only [notifyLoop, h0, if_false]
        exact he

/-- When every attempt the fuel allows fails, the loop makes exactly
`fuel` POSTs, sleeps after each one (including the last), and ends
without exception, reaching the for-else branch. -/
theorem notifyLoop_all_fail (g : Nat → Response) (u p : Json) :
    ∀ fuel a d, (∀ i, i < fuel → (g (a + i)).status ≠ 200) →
    countEvalPosts (notifyLoop (fun i => Outcome.resp (g i)) u p fuel a d).1 = fuel ∧
    sleepsOf (notifyLoop (fun i => Outcome.resp (g i)) u p fuel a d).1 =
      (List.range fuel).map (fun j => d * 2 ^ j) ∧
    (notifyLoop (fun i => Outcome.resp (g i)) u p fuel a d).2 = false := by
  intro fuel
  induction fuel with
  | zero => intro a d _; exact ⟨rfl, rfl, rfl⟩
  | succ n ih =>
    intro a d hfail
    have h0 : (g a).status ≠ 200 := by
      have := hfail 0 (Nat.succ_pos n)
      rwa [Nat.add_zero] at this
    have ihk := ih (a + 1) (d * 2)
      (fun i hi => by
        have := hfail (i + 1) (Nat.succ_lt_succ hi)
        rwa [show a + (i + 1) = a + 1 + i by omega] at this)
    obtain ⟨hc, hs, he⟩ := ihk
    refine ⟨?_, ?_, ?_⟩
    · simp only [notifyLoop, h0, if_false]
      rw [countEvalPosts_cons_post, countEvalPosts_cons_sleep, hc]
    · simp only [notifyLoop, h0, if_false]
      rw [sleepsOf_cons_post, sleepsOf_cons_sleep, hs]
      have hpow : ∀ j, d * 2 ^ (j + 1) = d * 2 * 2 ^ j := fun j => by ring
      simp [List.range_succ_eq_map, List.map_map, Function.comp, hpow]
    · simp only [notifyLoop, h0, if_false]
      exact he

/-- A raised transport error at relative attempt `k`, after `k` failing
responses, escapes the loop: `k + 1` POSTs, no further sleep after the
raising attempt, and the exception flag set. -/
theorem notifyLoop_raise (f : Nat → Outcome) (u p : Json) :
    ∀ fuel a d k, k < fuel →
    (∀ i, i < k → ∃ r, f (a + i) = Outcome.resp r ∧ r.status ≠ 200) →
    f (a + k) = Outcome.raise →
    countEvalPosts (notifyLoop f u p fuel a d).1 = k + 1 ∧
    sleepsOf (notifyLoop f u p fuel a d).1 =
      (List.range k).map (fun j => d * 2 ^ j) ∧
    (notifyLoop f u p fuel a d).2 = true := by
  intro fuel
  induction fuel with
  | zero => intro a d k hk; exact absurd hk (Nat.not_lt_zero k)
  | succ n ih =>
    intro a d k hk hfail hraise
    match k with
    | 0 =>
      rw [Nat.add_zero] at hraise
      simp [notifyLoop, hraise, countEvalPosts, List.filter_cons, isEvalPost, sleepsOf]
    | k' + 1 =>
      obtain ⟨r, hr, h0⟩ := hfail 0 (Nat.succ_pos k')
      rw [Nat.add_zero] at hr
      have ihk := ih (a + 1) (d * 2) k' (Nat.lt_of_succ_lt_succ hk)
        (fun i hi => by
          have := hfail (i + 1) (Nat.succ_lt_succ hi)
          rwa [show a + (i + 1) = a + 1 + i by omega] at this)
        (by rw [show a + 1 + k' = a + (k' + 1) by omega]; exact hraise)
      obtain ⟨hc, hs, he⟩ := ihk
      refine ⟨?_, ?_, ?_⟩
      · simp only [notifyLoop, hr, h0, if_false]
        rw [countEvalPosts_cons_post, countEvalPosts_cons_sleep, hc]
      · simp only [notifyLoop, hr, h0, if_false]
        rw [sleepsOf_cons_post, sleepsOf_cons_sleep, hs]
        have hpow : ∀ j, d * 2 ^ (j + 1) = d * 2 * 2 ^ j := fun j => by ring
        simp [List.range_succ_eq_map, List.map_map, Function.comp, hpow]
      · simp only [notifyLoop, hr, h0, if_false]
        exact he

/-- C1: the notifier makes at most 5 POST attempts to the evaluation URL
and stops at the first 200: if the first `N < 5` responses are non-200
and response `N` is 200, exactly `N + 1` POSTs occur, with doubling
sleeps `1, 2, …, 2^(N-1)` before the retries; if all 5 responses are
non-200, exactly 5 POSTs occur, the sleeps are `1, 2, 4, 8, 16`, and the
run ends without exception, taking no further action. -/
theorem notifier_retry_policy (g : Nat → Response) (u p : Json) :
    (∀ N, N < 5 → (∀ i, i < N → (g i).status ≠ 200) → (g N).status = 200 →
      countEvalPosts (notifyRun (fun i => Outcome.resp (g i)) u p).1 = N + 1 ∧
      sleepsOf (notifyRun (fun i => Outcome.resp (g i)) u p).1 =
        (List.range N).map (fun j => 2 ^ j)) ∧
    ((∀ i, i < 5 → (g i).status ≠ 200) →
      countEvalPosts (notifyRun (fun i => Outcome.resp (g i)) u p).1 = 5 ∧
      sleepsOf (notifyRun (fun i => Outcome.resp (g i)) u p).1 = [1, 2, 4, 8, 16] ∧
      (notifyRun (fun i => Outcome.resp (g i)) u p).2 = false) := by
  constructor
  · intro N hN hfail hsucc
    have h := notifyLoop_stops_at_success g u p 5 0 1 N hN
      (fun i hi => by rw [Nat.zero_add]; exact hfail i hi)
      (by rw [Nat.zero_add]; exact hsucc)
    refine ⟨h.1, ?_⟩
    unfold notifyRun
    rw [h.2.1]
    simp
  · intro hfail
    have h := notifyLoop_all_fail g u p 5 0 1
      (fun i hi => by rw [Nat.zero_add]; exact hfail i hi)
    refine ⟨h.1, ?_, h.2.2⟩
    unfold notifyRun
    rw [h.2.1]
    decide

/-- Witness for C1: two 500 responses followed by a 200 yield exactly 3
POSTs with sleeps 1, 2; five 500 responses yield exactly 5 POSTs with
sleeps 1, 2, 4, 8, 16 and no escaping exception. -/
theorem notifier_retry_policy_witness :
    countEvalPosts (notifyRun
      (fun i => Outcome.resp (if i < 2 then ⟨500, Json.null⟩ else ⟨200, Json.null⟩))
      Json.null Json.null).1 = 3 ∧
    sleepsOf (notifyRun
      (fun i => Outcome.resp (if i < 2 then ⟨500, Json.null⟩ else ⟨200, Json.null⟩))
      Json.null Json.null).1 = [1, 2] ∧
    countEvalPosts (notifyRun (fun _ => Outcome.resp ⟨500, Json.null⟩)
      Json.null Json.null).1 = 5 ∧
    sleepsOf (notifyRun (fun _ => Outcome.resp ⟨500, Json.null⟩)
      Json.null Json.null).1 = [1, 2, 4, 8, 16] := by
  have h1 := (notifier_retry_policy
    (fun i => if i < 2 then ⟨500, Json.null⟩ else ⟨200, Json.null⟩)
    Json.null Json.null).1 2 (by decide) (by decide) (by decide)
  have h2 := (notifier_retry_policy (fun _ => ⟨500, Json.null⟩)
    Json.null Json.null).2 (by decide)
  exact ⟨h1.1, by rw [h1.2]; decide, h2.1, h2.2.1⟩

/-- C3 counterexample: in a run where every notification attempt raises a
transport error, only one POST is made, no backoff sleep happens and the
exception escapes the loop (into the task's outer handler) — the notifier
does not wait and retry. -/
theorem transport_error_counterexample :
    countEvalPosts (notifyRun (fun _ => Outcome.raise) Json.null Json.null).1 = 1 ∧
    sleepsOf (notifyRun (fun _ => Outcome.raise) Json.null Json.null).1 = [] ∧
    (notifyRun (fun _ => Outcome.raise) Json.null Json.null).2 = true :=
  ⟨rfl, rfl, rfl⟩

/-- C3 corrected: a transport error during a notification attempt is not
retried.  After `k` failing responses, a raise at attempt `k` ends the
loop with exactly `k + 1` POSTs and no further sleep; the exception is
absorbed by the outer handler of the background task. -/
theorem transport_error_aborts_notifier (f : Nat → Outcome) (u p : Json) (k : Nat)
    (hk : k < 5)
    (hfail : ∀ i, i < k → ∃ r, f i = Outcome.resp r ∧ r.status ≠ 200)
    (hraise : f k = Outcome.raise) :
    countEvalPosts (notifyRun f u p).1 = k + 1 ∧
    sleepsOf (notifyRun f u p).1 = (List.range k).map (fun j => 2 ^ j) ∧
    (notifyRun f u p).2 = true := by
  have h := notifyLoop_raise f u p 5 0 1 k hk
    (fun i hi => by rw [Nat.zero_add]; exact hfail i hi)
    (by rw [Nat.zero_add]; exact hraise)
  refine ⟨h.1, ?_, h.2.2⟩
  unfold notifyRun
  rw [h.2.1]
  simp

/-- Witness for the corrected C3: one 500 response followed by a raising
attempt yields exactly 2 POSTs, one sleep of 1, and the exception flag. -/
theorem transport_error_aborts_notifier_witness :
    countEvalPosts (notifyRun
      (fun i => if i = 0 then Outcome.resp ⟨500, Json.null⟩ else Outcome.raise)
      Json.null Json.null).1 = 2 ∧
    sleepsOf (notifyRun
      (fun i => if i = 0 then Outcome.resp ⟨500, Json.null⟩ else Outcome.raise)
      Json.null Json.null).1 = [1] ∧
    (notifyRun
      (fun i => if i = 0 then Outcome.resp ⟨500, Json.null⟩ else Outcome.raise)
      Json.null Json.null).2 = true := by
  have h := transport_error_aborts_notifier
    (fun i => if i = 0 then Outcome.resp ⟨500, Json.null⟩ else Outcome.raise)
    Json.null Json.null 1 (by decide)
    (fun i hi => by
      interval_cases i
      exact ⟨⟨500, Json.null⟩, rfl, by decide⟩)
    rfl
  exact ⟨h.1, by rw [h.2.1]; decide, h.2.2⟩

/-- C2: whenever the repository-creation POST returns a status other than
201, the background run stops there — its whole trace is that single
POST, so no file write, no commit fetch, no sleep and no notification
attempt ever occur afterward in that run. -/
theorem create_failure_aborts (data : List (String × Json)) (evaluation_url : Json)
    (env : Env) (r : Response) (hc : env.createResp = Outcome.resp r)
    (h201 : r.status ≠ 201) :
    process_request data evaluation_url env =
      [Event.postCreate (GITHUB_API_URL ++ "/user/repos") (createPayload data)] := by
  simp [process_request, hc, h201]

/-- Witness for C2: a 403 creation response leaves a one-event trace. -/
theorem create_failure_aborts_witness :
    process_request goodData (Json.str "http://cb/eval") envCreate403 =
      [Event.postCreate (GITHUB_API_URL ++ "/user/repos") (createPayload goodData)] :=
  create_failure_aborts goodData (Json.str "http://cb/eval") envCreate403
    ⟨403, Json.null⟩ rfl (by decide)

/-- C4 counterexample: on the specification's own example body (which has
`task` = "demo-repo" and no `usercode` key) the endpoint answers 200 with
usercode "default_usercode", not the value of the `task` field. -/
theorem usercode_not_task_counterexample :
    (api_endpoint (some (Json.obj specExampleBody))).status = 200 ∧
    (api_endpoint (some (Json.obj specExampleBody))).body =
      some [("usercode", Json.str "default_usercode")] ∧
    (api_endpoint (some (Json.obj specExampleBody))).body ≠
      some [("usercode", Json.str "demo-repo")] := by
  refine ⟨rfl, rfl, ?_⟩
  intro h
  rw [show (api_endpoint (some (Json.obj specExampleBody))).body =
    some [("usercode", Json.str "default_usercode")] from rfl] at h
  simp at h

/-- C4 corrected: for every JSON object request body the response is 200
with body `{"usercode": u}` where `u` is the body's `usercode` field when
the key is present and the string "default_usercode" otherwise; the
`task` field plays no part in it. -/
theorem object_body_acknowledgment (kvs : List (String × Json)) :
    (api_endpoint (some (Json.obj kvs))).status = 200 ∧
    (api_endpoint (some (Json.obj kvs))).body =
      some [("usercode", (kvs.lookup "usercode").getD (Json.str "default_usercode"))] :=
  ⟨rfl, rfl⟩

/-- C8 counterexample: a syntactically valid JSON body that is not an
object — here the empty array — yields status 500, not 200 (the handler's
`data.get` raises `AttributeError`). -/
theorem valid_json_array_yields_500 :
    (api_endpoint (some (Json.arr []))).status = 500 ∧
    (api_endpoint (some (Json.arr []))).status ≠ 200 :=
  ⟨rfl, by decide⟩

/-- C8 corrected: the endpoint answers 200 exactly on bodies that parse to
a JSON object; on a parse failure, or on valid JSON that is not an object
(where attribute access raises), it answers 500 with the generic error
body. -/
theorem endpoint_status_characterization (b : Option Json) :
    ((api_endpoint b).status = 200 ↔ ∃ kvs, b = some (Json.obj kvs)) ∧
    ((api_endpoint b).status ≠ 200 →
      (api_endpoint b).status = 500 ∧
      (api_endpoint b).body = some [("detail", Json.str "Internal Server Error")]) := by
  cases b with
  | none => simp [api_endpoint]
  | some j =>
    cases j with
    | null => simp [api_endpoint]
    | bool x => simp [api_endpoint]
    | num n => simp [api_endpoint]
    | str s => simp [api_endpoint]
    | arr xs => simp [api_endpoint]
    | obj kvs =>
      refine ⟨⟨fun _ => ⟨kvs, rfl⟩, fun _ => rfl⟩, fun h => absurd rfl h⟩

/-- C9: README generation is deterministic — it is a pure function of the
repository name and full name, so two generations on the same inputs are
byte-identical. -/
theorem readme_deterministic (repo_name full_name : String) :
    readme_content repo_name full_name = readme_content repo_name full_name := rfl

/-- The retry loop emits only eval POSTs and sleeps: any filter rejecting
those two shapes is empty on its trace. -/
theorem notifyLoop_filter_eq_nil (f : Nat → Outcome) (u p : Json) (q : Event → Bool)
    (hpost : ∀ a b, q (Event.postEval a b) = false)
    (hsleep : ∀ d, q (Event.sleep d) = false) :
    ∀ fuel a d, ((notifyLoop f u p fuel a d).1.filter q) = [] := by
  intro fuel
  induction fuel with
  | zero => intro a d; rfl
  | succ n ih =>
    intro a d
    simp only [notifyLoop]
    cases f a with
    | raise => simp [List.filter_cons, hpost]
    | resp r =>
      by_cases h : r.status = 200
      · simp [h, List.filter_cons, hpost]
      · simp [h, List.filter_cons, hpost, hsleep, ih]

/-- The step-4 loop emits only file PUTs: any filter rejecting PUTs is
empty on its trace. -/
theorem putGenerated_filter_eq_nil (env : Env) (fn : String) (q : Event → Bool)
    (hput : ∀ a b c, q (Event.putFile a b c) = false) :
    ∀ l i, ((putGenerated env fn l i).1.filter q) = [] := by
  intro l
  induction l with
  | nil => intro i; rfl
  | cons hd tl ih =>
    intro i
    obtain ⟨filename, content⟩ := hd
    simp only [putGenerated]
    cases env.putResp i with
    | raise => simp [List.filter_cons, hput]
    | resp r => simp [List.filter_cons, hput, ih]

/-- `step6` emits only eval POSTs and sleeps. -/
theorem step6_filter_eq_nil (data : List (String × Json)) (u : Json) (env : Env)
    (rd cb : Json) (q : Event → Bool)
    (hpost : ∀ a b, q (Event.postEval a b) = false)
    (hsleep : ∀ d, q (Event.sleep d) = false) :
    (step6 data u env rd cb).filter q = [] := by
  unfold step6
  cases (cb.item 0).bind (fun c => c.idx "sha") with
  | error e => rfl
  | ok shaJ =>
    cases rd.idx "html_url" with
    | error e =>
      cases (rd.idx "owner").bind (fun o => o.idx "login") with
      | error e2 => cases rd.idx "name" with
        | error e3 => rfl
        | ok x => rfl
      | ok x => cases rd.idx "name" with
        | error e3 => rfl
        | ok y => rfl
    | ok h1 =>
      cases (rd.idx "owner").bind (fun o => o.idx "login") with
      | error e2 => cases rd.idx "name" with
        | error e3 => rfl
        | ok x => rfl
      | ok h2 =>
        cases rd.idx "name" with
        | error e3 => rfl
        | ok h3 => exact notifyLoop_filter_eq_nil env.evalResp u _ q hpost hsleep 5 0 1

/-- When the commit fetch fails (non-200) or its body is the empty list,
`step5` sends nothing to the evaluation URL. -/
theorem step5_filter_evalPost (data : List (String × Json)) (u : Json) (env : Env)
    (rd : Json) (fn : String) (r : Response)
    (hc : env.commitsResp = Outcome.resp r)
    (h : r.status ≠ 200 ∨ r.body = Json.arr []) :
    (step5 data u env rd fn).filter isEvalPost = [] := by
  unfold step5
  rw [hc]
  rcases h with h | h
  · simp [List.filter_cons, isEvalPost, h]
  · by_cases hs : r.status = 200
    · simp only [hs, if_true, List.filter_cons, isEvalPost]
      rw [h]
      rfl
    · simp [List.filter_cons, isEvalPost, hs]

/-- Under a failed or empty commit fetch, the whole post-creation phase
sends nothing to the evaluation URL. -/
theorem afterCreate_filter_evalPost (data : List (String × Json)) (u : Json)
    (env : Env) (rd : Json) (rn : String) (r : Response)
    (hc : env.commitsResp = Outcome.resp r)
    (h : r.status ≠ 200 ∨ r.body = Json.arr []) :
    (afterCreate data u env rd rn).filter isEvalPost = [] := by
  unfold afterCreate
  cases rd.idx "full_name" with
  | error e => rfl
  | ok fnJ =>
    cases env.putResp 0 with
    | raise => rfl
    | resp r0 =>
      cases env.putResp 1 with
      | raise => rfl
      | resp r1 =>
        simp only [List.filter_cons, List.filter_append, isEvalPost]
        rw [putGenerated_filter_eq_nil env (pyStr fnJ) isEvalPost (fun a b c => rfl)]
        by_cases hg : (putGenerated env (pyStr fnJ) llm_generated_files 2).2
        · simp [hg]
        · simp only [hg, if_false]
          simp [step5_filter_evalPost data u env rd (pyStr fnJ) r hc h]

/-- C6: if the commit-list fetch returns a non-200 status, or a 200 with
an empty commit list (where the `[0]` subscript raises and the outer
handler absorbs the exception), the run never POSTs an evaluation
payload; `process_request` still returns a trace, so nothing escapes the
background task. -/
theorem commit_failure_no_eval (data : List (String × Json)) (evaluation_url : Json)
    (env : Env) (r : Response) (hc : env.commitsResp = Outcome.resp r)
    (h : r.status ≠ 200 ∨ r.body = Json.arr []) :
    countEvalPosts (process_request data evaluation_url env) = 0 := by
  rw [countEvalPosts]
  simp only [process_request]
  cases env.createResp with
  | raise => rfl
  | resp cr =>
    by_cases h201 : cr.status = 201
    · simp only [h201, if_true, List.filter_cons, isEvalPost]
      rw [List.length_eq_zero]
      simp only [Bool.false_eq_true, if_false]
      exact afterCreate_filter_evalPost data evaluation_url env cr.body _ r hc h
    · simp [h201, List.filter_cons, isEvalPost]

/-- Witness for C6: with a 200-but-empty commit list, a fully scheduled
run makes zero evaluation POSTs. -/
theorem commit_failure_no_eval_witness :
    countEvalPosts (process_request goodData (Json.str "http://cb/eval") envEmptyCommits) = 0 :=
  commit_failure_no_eval goodData (Json.str "http://cb/eval") envEmptyCommits
    ⟨200, Json.arr []⟩ rfl (Or.inr rfl)

/-- C5 counterexample: in a run where the LICENSE write (step 2) returns
status 500, the workflow does not terminate — all four file PUTs are
made, the commit-SHA lookup runs and a notification is sent. -/
theorem license_put_failure_ignored :
    envLicenseFail.putResp 0 = Outcome.resp ⟨500, Json.null⟩ ∧
    ((process_request goodData (Json.str "http://cb/eval") envLicenseFail).filter isPut).length = 4 ∧
    ((process_request goodData (Json.str "http://cb/eval") envLicenseFail).filter isCommitFetch).length = 1 ∧
    countEvalPosts (process_request goodData (Json.str "http://cb/eval") envLicenseFail) = 1 :=
  ⟨rfl, rfl, rfl, rfl⟩

/-- C5 corrected: the file-write steps 2-4 are fire-and-forget in the
other direction — their response statuses are never checked, so whatever
statuses the PUTs return, the run still proceeds to the commit-SHA
lookup; only repository creation and the commit fetch are status-checked,
and only a raised transport error stops the run mid-write. -/
theorem put_failures_do_not_abort (data : List (String × Json)) (evaluation_url : Json)
    (env : Env) (r : Response) (p : Nat → Response) (fn : Json)
    (hc : env.createResp = Outcome.resp r) (h201 : r.status = 201)
    (hfn : r.body.idx "full_name" = Except.ok fn)
    (hput : ∀ i, env.putResp i = Outcome.resp (p i)) :
    ((process_request data evaluation_url env).filter isPut).length = 4 ∧
    ((process_request data evaluation_url env).filter isCommitFetch).length = 1 := by
  have hgen : ∀ l i, (∀ j, env.putResp j = Outcome.resp (p j)) →
      (putGenerated env (pyStr fn) l i).1 =
        l.map (fun fc => Event.putFile
          (GITHUB_API_URL ++ "/repos/" ++ pyStr fn ++ "/contents/" ++ fc.1)
          ("Add " ++ fc.1) (b64encode fc.2)) ∧
      (putGenerated env (pyStr fn) l i).2 = false := by
    intro l
    induction l with
    | nil => intro _ _; exact ⟨rfl, rfl⟩
    | cons hd tl ih =>
      intro i hp
      obtain ⟨filename, content⟩ := hd
      simp only [putGenerated, hp i]
      obtain ⟨h1, h2⟩ := ih (i + 1) hp
      simp [h1, h2]
  simp only [process_request, hc, h201, if_true]
  unfold afterCreate
  rw [hfn]
  simp only [hput 0, hput 1]
  obtain ⟨hg1, hg2⟩ := hgen llm_generated_files 2 hput
  rw [hg1, hg2]
  simp only [Bool.false_eq_true, if_false]
  unfold step5
  constructor
  · simp only [List.filter_cons, List.filter_append, isPut, llm_generated_files,
      List.map_cons, List.map_nil]
    cases env.commitsResp with
    | raise => simp [List.filter_cons, isPut]
    | resp cr =>
      by_cases hs : cr.status = 200
      · simp [hs, List.filter_cons, isPut,
          step6_filter_eq_nil data evaluation_url env r.body cr.body isPut
            (fun a b => rfl) (fun d => rfl)]
      · simp [hs, List.filter_cons, isPut]
  · simp only [List.filter_cons, List.filter_append, isCommitFetch, llm_generated_files,
      List.map_cons, List.map_nil]
    cases env.commitsResp with
    | raise => simp [List.filter_cons, isCommitFetch]
    | resp cr =>
      by_cases hs : cr.status = 200
      · simp [hs, List.filter_cons, isCommitFetch,
          step6_filter_eq_nil data evaluation_url env r.body cr.body isCommitFetch
            (fun a b => rfl) (fun d => rfl)]
      · simp [hs, List.filter_cons, isCommitFetch]

/-- Witness for the corrected C5: with the LICENSE PUT answering 500, the
commit fetch still happens. -/
theorem put_failures_do_not_abort_witness :
    ((process_request goodData (Json.str "http://cb/eval") envLicenseFail).filter isCommitFetch).length = 1 :=
  (put_failures_do_not_abort goodData (Json.str "http://cb/eval") envLicenseFail
    ⟨201, repoDataOk⟩ (fun i => ⟨if i = 0 then 500 else 201, Json.null⟩)
    (Json.str "owner/task") rfl rfl rfl (fun _ => rfl)).2

/-- A required-keys filter containing some key is not empty, so the
scheduling condition is false. -/
theorem scheduled_none_of_missing (kvs : List (String × Json)) (k : String)
    (hmem : k ∈ required_keys.filter (fun kk => !(pyTruthyGet kvs kk))) :
    (api_endpoint (some (Json.obj kvs))).scheduled = none := by
  show (if ((kvs.lookup "evaluation_url").getD Json.null).truthy &&
      (required_keys.filter (fun kk => !(pyTruthyGet kvs kk))).isEmpty
    then some (kvs, (kvs.lookup "evaluation_url").getD Json.null) else none) = none
  have hne : required_keys.filter (fun kk => !(pyTruthyGet kvs kk)) ≠ [] :=
    List.ne_nil_of_mem hmem
  rcases hq : required_keys.filter (fun kk => !(pyTruthyGet kvs kk)) with _ | ⟨a, l⟩
  · exact absurd hq hne
  · simp

/-- C7: a JSON object body lacking any of the keys `email`, `task`,
`round`, `nonce` or `evaluation_url` is still answered 200 with the
acknowledgment token, and no background task is scheduled (so no hosting
API call ever happens for it). -/
theorem missing_field_no_background (kvs : List (String × Json))
    (h : kvs.lookup "email" = none ∨ kvs.lookup "task" = none ∨
         kvs.lookup "round" = none ∨ kvs.lookup "nonce" = none ∨
         kvs.lookup "evaluation_url" = none) :
    (api_endpoint (some (Json.obj kvs))).status = 200 ∧
    (api_endpoint (some (Json.obj kvs))).body =
      some [("usercode", (kvs.lookup "usercode").getD (Json.str "default_usercode"))] ∧
    (api_endpoint (some (Json.obj kvs))).scheduled = none := by
  refine ⟨rfl, rfl, ?_⟩
  have hup : ∀ kk, kvs.lookup kk = none → pyTruthyGet kvs kk = false := by
    intro kk hkk
    simp [pyTruthyGet, hkk]
  rcases h with h | h | h | h | h
  · exact scheduled_none_of_missing kvs "email"
      (by rw [List.mem_filter]; exact ⟨by simp [required_keys], by simp [hup _ h]⟩)
  · exact scheduled_none_of_missing kvs "task"
      (by rw [List.mem_filter]; exact ⟨by simp [required_keys], by simp [hup _ h]⟩)
  · exact scheduled_none_of_missing kvs "round"
      (by rw [List.mem_filter]; exact ⟨by simp [required_keys], by simp [hup _ h]⟩)
  · exact scheduled_none_of_missing kvs "nonce"
      (by rw [List.mem_filter]; exact ⟨by simp [required_keys], by simp [hup _ h]⟩)
  · show (if ((kvs.lookup "evaluation_url").getD Json.null).truthy &&
        (required_keys.filter (fun kk => !(pyTruthyGet kvs kk))).isEmpty
      then some (kvs, (kvs.lookup "evaluation_url").getD Json.null) else none) = none
    rw [h]
    simp [Json.truthy]

/-- Witness for C7: a body with only a `task` key is acknowledged with 200
and nothing is scheduled. -/
theorem missing_field_no_background_witness :
    (api_endpoint (some (Json.obj [("task", Json.str "demo-repo")]))).status = 200 ∧
    (api_endpoint (some (Json.obj [("task", Json.str "demo-repo")]))).scheduled = none :=
  ⟨(missing_field_no_background [("task", Json.str "demo-repo")] (Or.inl rfl)).1,
   (missing_field_no_background [("task", Json.str "demo-repo")] (Or.inl rfl)).2.2⟩

/-- C10: a required field that is present but falsy — `round` equal to 0,
an empty string, `null`, and so on — is treated like an absent one: the
endpoint answers 200 but schedules no background work. -/
theorem falsy_field_no_background (kvs : List (String × Json)) (k : String) (v : Json)
    (hk : k ∈ required_keys ∨ k = "evaluation_url")
    (hv : kvs.lookup k = some v) (hfalsy : v.truthy = false) :
    (api_endpoint (some (Json.obj kvs))).status = 200 ∧
    (api_endpoint (some (Json.obj kvs))).scheduled = none := by
  refine ⟨rfl, ?_⟩
  rcases hk with hk | hk
  · exact scheduled_none_of_missing kvs k
      (by rw [List.mem_filter]; exact ⟨hk, by simp [pyTruthyGet, hv, hfalsy]⟩)
  · subst hk
    show (if ((kvs.lookup "evaluation_url").getD Json.null).truthy &&
        (required_keys.filter (fun kk => !(pyTruthyGet kvs kk))).isEmpty
      then some (kvs, (kvs.lookup "evaluation_url").getD Json.null) else none) = none
    rw [hv]
    simp [hfalsy]

/-- Witness for C10: with `round` present as 0 and every other field
valid, the endpoint answers 200 and schedules nothing. -/
theorem falsy_field_no_background_witness :
    (api_endpoint (some (Json.obj roundZeroBody))).status = 200 ∧
    (api_endpoint (some (Json.obj roundZeroBody))).scheduled = none :=
  falsy_field_no_background roundZeroBody "round" (Json.num 0)
    (Or.inl (by simp [required_keys])) rfl (by decide)

/-- Witness for the corrected C8: a JSON object body gets 200; an
unparseable body gets 500. -/
theorem endpoint_status_characterization_witness :
    (api_endpoint (some (Json.obj goodData))).status = 200 ∧
    (api_endpoint none).status = 500 := by
  have h1 := (endpoint_status_characterization (some (Json.obj goodData))).1.2 ⟨goodData, rfl⟩
  have h2 := (endpoint_status_characterization none).2 (by decide)
  exact ⟨h1, h2.1⟩
